import Mathlib

/-!
Shallow embedding of the cl-bot crawler core (src/base.py) and proofs about
the claims of its specification.  Python dicts whose key sets are static are
modelled as Lean structures with `Option` fields (a `none` detail field means
the key is absent from the dict); dynamically-keyed dict entries are modelled
as insertion-ordered association lists.  Python exceptions are modelled with
`Except PyError`.  Machine-level concerns (network, browser automation) are
modelled as explicit environment functions supplied to the embedded code.
-/

/-- Python exceptions that the embedded code can raise. -/
inductive PyError
  | keyError (k : String)
  | attributeError
  | valueError (msg : String)
  | unboundLocal (v : String)
deriving DecidableEq

deriving instance DecidableEq for Except

/-- Whether the first character list is a prefix of the second. -/
def starts_with : List Char → List Char → Bool
  | [], _ => true
  | _ :: _, [] => false
  | p :: ps, c :: cs => p == c && starts_with ps cs

/-- Left-to-right split on a nonempty separator `p :: ps`, accumulating the
current piece reversed.  Structural recursion on a fuel that is kept at or
above the remaining length (every step consumes at least one character), so
the fuel-exhausted fallback is unreachable from `py_split`. -/
def split_aux (p : Char) (ps : List Char) : Nat → List Char → List Char → List (List Char)
  | _, [], cur => [cur.reverse]
  | 0, cs, cur => [cur.reverse ++ cs]
  | fuel + 1, c :: cs, cur =>
    if starts_with (p :: ps) (c :: cs) then
      cur.reverse :: split_aux p ps fuel (cs.drop ps.length) []
    else split_aux p ps fuel cs (c :: cur)

/-- Python `s.split(sep)` for a nonempty separator. -/
def py_split (sep s : String) : List String :=
  match sep.data with
  | [] => [s]
  | p :: ps => (split_aux p ps s.data.length s.data []).map String.mk

/-- Left-to-right, non-overlapping replacement of the nonempty pattern
`p :: ps` by `rep`, fuelled like `split_aux`. -/
def py_replace_aux (p : Char) (ps rep : List Char) : Nat → List Char → List Char
  | _, [] => []
  | 0, cs => cs
  | fuel + 1, c :: cs =>
    if starts_with (p :: ps) (c :: cs) then rep ++ py_replace_aux p ps rep fuel (cs.drop ps.length)
    else c :: py_replace_aux p ps rep fuel cs

/-- Python `s.replace(pat, rep)` for a nonempty pattern. -/
def py_replace (s pat rep : String) : String :=
  match pat.data with
  | [] => s
  | p :: ps => ⟨py_replace_aux p ps rep.data s.data.length s.data⟩

/-- Join a list of strings with a separator (Python `sep.join(xs)`). -/
def py_join (sep : String) : List String → String
  | [] => ""
  | [x] => x
  | x :: y :: xs => x ++ sep ++ py_join sep (y :: xs)

/-- ASCII whitespace test (approximates Python `str.strip`'s whitespace
class; the crawler's texts are ASCII). -/
def py_is_space (c : Char) : Bool :=
  c == ' ' || c == '\t' || c == '\n' || c == '\r'

/-- Python `s.strip()`. -/
def py_strip (s : String) : String :=
  ⟨((s.data.dropWhile py_is_space).reverse.dropWhile py_is_space).reverse⟩

/-- Python `s.lower()`. -/
def py_lower (s : String) : String :=
  ⟨s.data.map Char.toLower⟩

/-- Python substring test `pat in s` (for nonempty `pat`, as used by the code). -/
def contains_str (s pat : String) : Bool :=
  1 < (py_split pat s).length

/-- Python `s.rsplit(":", 1)[0]`: everything before the last colon, or the
whole string when there is no colon. -/
def rsplit_colon_first (s : String) : String :=
  let parts := py_split ":" s
  if parts.length ≤ 1 then s else py_join ":" parts.dropLast

/-- Python `s.split(sep, 1)[-1]`: everything after the first occurrence of
`sep`, or the whole string when `sep` does not occur. -/
def split_once_last (sep s : String) : String :=
  match py_split sep s with
  | [] => s
  | [x] => x
  | _ :: rest => py_join sep rest

/-- Model of `urllib.parse.urljoin` restricted to the absolute/relative cases
the crawler meets; no claim depends on the join semantics itself. -/
def urljoin (base url : String) : String :=
  if starts_with "http".data url.data then url else base ++ url

/-- Value of a filter spec entry (`base_filters` / `extra_filters` /
list-filter tables in base.py): Python `None`, a string or int literal, or a
dict of valid options (a "list filter"). -/
inductive FilterVal
  | null
  | str (s : String)
  | num (n : Int)
  | options (m : List (String × String))
deriving DecidableEq

/-- One filter spec: the provider `url_key`, the `value` entry, and the
optional `attr` marker string used by `parse_attrs` for binary filters. -/
structure FilterSpec where
  url_key : String
  value : FilterVal
  attr : Option String
deriving DecidableEq

/-- A scalar value supplied by the user in the `filters` argument. -/
inductive UserItem
  | str (s : String)
  | num (n : Int)
  | bool (b : Bool)
deriving DecidableEq

/-- A value supplied by the user in the `filters` argument: a scalar or a
list of scalars. -/
inductive UserVal
  | item (i : UserItem)
  | list (xs : List UserItem)
deriving DecidableEq

/-- A value stored in the parsed GET-parameter dict built by `get_filters`. -/
inductive ParsedVal
  | user (v : UserVal)
  | str (s : String)
  | num (n : Int)
  | opts (xs : List String)
deriving DecidableEq

/-- Python truthiness of a user-supplied filter value. -/
def py_truthy : UserVal → Bool
  | .item (.str s) => s != ""
  | .item (.num n) => n != 0
  | .item (.bool b) => b
  | .list xs => !xs.isEmpty

/-- `if not utils.isiterable(value) or isinstance(value, str): value = [value]`:
strings and scalars are forced to a singleton list, lists pass through. -/
def force_list : UserVal → List UserItem
  | .list xs => xs
  | .item i => [i]

/-- `valid_options[opt]` lookup; a non-string option name never matches a key
of the (string-keyed) option dict, which in Python raises the `KeyError` that
the code catches and turns into a dropped option. -/
def opt_lookup (valid : List (String × String)) : UserItem → Option String
  | .str s => valid.lookup s
  | _ => none

/-- Python dict assignment `d[k] = v` on an insertion-ordered association
list with unique keys: update in place, or append when the key is new. -/
def dictSet {α : Type} : List (String × α) → String → α → List (String × α)
  | [], k, v => [(k, v)]
  | p :: rest, k, v => if p.1 = k then (k, v) :: rest else p :: dictSet rest k v

/-- `self.base_filters.get(key) or self.extra_filters.get(key) or list_filters[key]`
(every real spec dict is nonempty, hence truthy, so `or` is first-hit lookup);
`none` models the `KeyError` caught by the surrounding handler. -/
def lookup3 (base extra lf : List (String × FilterSpec)) (k : String) : Option FilterSpec :=
  ((base.lookup k).orElse (fun _ => extra.lookup k)).orElse (fun _ => lf.lookup k)

/-- Body of the `for key, value in iteritems(filters or {})` loop of
`get_filters`: one user entry applied to the parsed-parameter dict. -/
def apply_filter (base extra lf : List (String × FilterSpec))
    (parsed : List (String × ParsedVal)) (kv : String × UserVal) :
    List (String × ParsedVal) :=
  match lookup3 base extra lf kv.1 with
  | none => parsed
  | some spec =>
    match spec.value with
    | .null => dictSet parsed spec.url_key (.user kv.2)
    | .options valid =>
      let vals := force_list kv.2
      dictSet parsed spec.url_key (.opts (vals.filterMap (opt_lookup valid)))
    | .str s => if py_truthy kv.2 then dictSet parsed spec.url_key (.str s) else parsed
    | .num n => if py_truthy kv.2 then dictSet parsed spec.url_key (.num n) else parsed

/-- `CraigslistBase.get_filters`: parses user filters into GET parameters,
starting from the fixed anti-nearby parameter `searchNearby = 1`. -/
def get_filters (base extra lf : List (String × FilterSpec))
    (filters : List (String × UserVal)) : List (String × ParsedVal) :=
  filters.foldl (apply_filter base extra lf) [("searchNearby", .num 1)]

/-- `CraigslistBase.base_filters`. -/
def base_filters : List (String × FilterSpec) :=
  [("query", ⟨"query", .null, none⟩),
   ("search_titles", ⟨"srchType", .str "T", none⟩),
   ("has_image", ⟨"hasPic", .num 1, none⟩),
   ("posted_today", ⟨"postedToday", .num 1, none⟩),
   ("bundle_duplicates", ⟨"bundleDuplicates", .num 1, none⟩),
   ("search_distance", ⟨"search_distance", .null, none⟩),
   ("zip_code", ⟨"postal", .null, none⟩)]

/-- `CraigslistBase.sort_by_options`. -/
def sort_by_options : List (String × String) :=
  [("newest", "date"), ("price_asc", "priceasc"), ("price_desc", "pricedsc")]

/-- A dynamically-added result-dict entry set by `parse_attrs`. -/
inductive PyVal
  | bool (b : Bool)
  | str (s : String)
deriving DecidableEq

/-- A `<li class="cl-search-result">` row as the attributes and sub-elements
that `process_row` reads from it.  `mainLink = none` models an absent
`<a class="main">` element; `some none` models the element present but with
no `href` attribute. -/
structure RowTag where
  hasSpacerDiv : Bool
  dataPid : Option String
  dataRepostOf : Option String
  title : Option String
  mainLink : Option (Option String)
  priceText : Option String
  hasDots : Bool
  metaText : Option String
deriving DecidableEq

/-- The result dict built by `process_row` and enriched by `geotag_result`,
`include_details` and `parse_attrs`.  Detail fields are `Option`s: `none`
means the key is absent from the dict.  Coordinates are kept as the raw
attribute strings (the `float(...)` conversion is assumed to succeed and is
not modelled; no claim depends on the numeric values). -/
structure Result where
  id : String
  repost_of : Option String
  name : Option String
  url : String
  datetime : Option String
  last_updated : Option String
  price : Option String
  where_ : Option String
  has_image : Bool
  geotag : Option (String × String)
  deleted : Bool
  body : Option String
  email : Option String
  phone : Option String
  created : Option String
  images : Option (List String)
  attrs : Option (List String)
  address : Option String
  extra : List (String × PyVal)
deriving DecidableEq

/-- A child node of the posting-body section: its text and whether the node
carries a truthy `attrs` mapping (such nodes are filtered out). -/
structure BodyNode where
  text : String
  hasAttrs : Bool
deriving DecidableEq

/-- A `<time>` element: its `datetime` attribute (absent means `KeyError`). -/
structure TimeTag where
  datetime : Option String
deriving DecidableEq

/-- A `<p>` element of the postinginfos block. -/
structure PTag where
  text : String
  time : Option TimeTag
deriving DecidableEq

/-- An `<img>` tag: its `src` attribute (absent means the `KeyError` that the
code catches and skips). -/
structure ImgTag where
  src : Option String
deriving DecidableEq

/-- The `<div id="map">` element with its two coordinate attributes. -/
structure MapDiv where
  latitude : Option String
  longitude : Option String
deriving DecidableEq

/-- A parsed detail page as the elements read by `geotag_result` and
`include_details`. -/
structure DetailSoup where
  postingbody : Option (List BodyNode)
  postinginfos : Option (List PTag)
  imgs : List ImgTag
  attrgroups : List (List String)
  mapaddress : Option String
  map_ : Option MapDiv
deriving DecidableEq

/-- Outcome of the browser-driven contact reveal: `some` models the click
sequence succeeding with the revealed value, `none` models the caught
exception path (CAPTCHA probe and logging have no effect on the record). -/
structure RevealOutcome where
  email : Option String
  phone : Option String
deriving DecidableEq

/-- `CraigslistBase.geotag_result`: adds the coordinate pair when the map
element is present; reading a missing coordinate attribute raises `KeyError`
(latitude is read first). -/
def geotag_result (r : Result) (soup : DetailSoup) : Except PyError Result :=
  match soup.map_ with
  | none => .ok r
  | some m =>
    match m.latitude with
    | none => .error (.keyError "data-latitude")
    | some la =>
      match m.longitude with
      | none => .error (.keyError "data-longitude")
      | some lo => .ok { r with geotag := some (la, lo) }

/-- Binary-filter pass of `parse_attrs`: a filter whose value is the int 1
sets its key to True when its `attr` marker occurs among the lowercased
attribute strings. -/
def binary_attr_step (lowered : List String) (acc : Result) (kv : String × FilterSpec) : Result :=
  if kv.2.value = FilterVal.num 1 then
    if lowered.contains (kv.2.attr.getD "") then
      { acc with extra := dictSet acc.extra kv.1 (PyVal.bool true) }
    else acc
  else acc

/-- List-filter pass of `parse_attrs`: the first option name of the filter
that occurs among the colon-stripped attribute strings is recorded. -/
def list_attr_step (afterColon : List String) (acc : Result) (kv : String × FilterSpec) : Result :=
  match kv.2.value with
  | .options m =>
    match m.find? (fun op => afterColon.contains op.1) with
    | some op => { acc with extra := dictSet acc.extra kv.1 (PyVal.str op.1) }
    | none => acc
  | _ => acc

/-- `CraigslistBase.parse_attrs`. -/
def parse_attrs (extra lf : List (String × FilterSpec)) (r : Result) : Result :=
  let attrsList := r.attrs.getD []
  let lowered := attrsList.map py_lower
  let r1 := extra.foldl (binary_attr_step lowered) r
  let afterColon := attrsList.map (fun a => split_once_last ": " a)
  lf.foldl (list_attr_step afterColon) r1

/-- Body text: concatenation of the texts of child nodes without a truthy
`attrs` mapping, stripped. -/
def body_text_of (nodes : List BodyNode) : String :=
  py_strip (py_join "" (nodes.filterMap (fun n => if n.hasAttrs then none else some n.text)))

/-- One `<p>` of the postinginfos loop: when the text mentions "posted" and a
`<time>` child exists, its `datetime` attribute (read with `KeyError` on
absence) is normalised (`T` replaced by a space, then `rsplit(":", 1)[0]`)
and stored in `created`. -/
def created_step (r : Result) (p : PTag) : Except PyError Result :=
  if contains_str p.text "posted" then
    match p.time with
    | none => .ok r
    | some t =>
      match t.datetime with
      | none => .error (.keyError "datetime")
      | some dt =>
        let created := py_replace dt "T" " "
        .ok { r with created := some (rsplit_colon_first created) }
  else .ok r

/-- The `for p in postinginfos.find_all("p")` loop. -/
def created_loop : List PTag → Result → Except PyError Result
  | [], r => .ok r
  | p :: ps, r =>
    match created_step r p with
    | .error e => .error e
    | .ok r2 => created_loop ps r2

/-- The per-image step of `include_details`: the `src` attribute with the
thumbnail-size token replaced by the larger-size token (absent `src` models
the `KeyError` that the code catches and skips). -/
def upgrade_src (i : ImgTag) : Option String :=
  i.src.map (fun s => py_replace s "50x50c" "600x450")

/-- Image URLs of `include_details`: drop the first tag when more than one is
present, then map each `src` through the thumbnail-size upgrade, skipping
tags without a `src`. -/
def detail_images (imgs : List ImgTag) : List String :=
  let image_tags := if 1 < imgs.length then imgs.drop 1 else imgs
  image_tags.filterMap upgrade_src

/-- Raw attribute strings: the stripped nonempty span texts of every
attrgroup, in order. -/
def attrs_of (attrgroups : List (List String)) : List String :=
  (attrgroups.map (fun g => g.filterMap (fun s =>
    let t := py_strip s
    if t = "" then none else some t))).flatten

/-- The browser-driven contact reveal of `include_details`: each of the two
click sequences is independently wrapped, so a field is set only when its
reveal succeeded and is left absent otherwise. -/
def reveal_phase (reveal : RevealOutcome) (r : Result) : Result :=
  let r2 := match reveal.email with
    | some e => { r with email := some e }
    | none => r
  match reveal.phone with
  | some p => { r2 with phone := some p }
  | none => r2

/-- The tail of `include_details` after the creation-time loop succeeded:
images, raw attributes (running `parse_attrs` when nonempty) and the
optional map address, in source order. -/
def after_created (extra lf : List (String × FilterSpec)) (soup : DetailSoup)
    (r4 : Result) : Result :=
  let r5 := { r4 with images := some (detail_images soup.imgs) }
  let attrs := attrs_of soup.attrgroups
  let r6 := { r5 with attrs := some attrs }
  let r7 := if attrs.isEmpty then r6 else parse_attrs extra lf r6
  match soup.mapaddress with
  | some a => { r7 with address := some a }
  | none => r7

/-- `CraigslistBase.include_details`: a missing posting body marks the record
deleted and stops; otherwise body text, revealed contact fields, creation
time (raising on a missing `postinginfos` block or `datetime` attribute),
images, attributes and address are added in source order. -/
def include_details (extra lf : List (String × FilterSpec)) (reveal : RevealOutcome)
    (r : Result) (soup : DetailSoup) : Except PyError Result :=
  match soup.postingbody with
  | none => .ok { r with deleted := true }
  | some nodes =>
    match soup.postinginfos with
    | none => .error .attributeError
    | some ps =>
      match created_loop ps (reveal_phase reveal { r with body := some (body_text_of nodes) }) with
      | .error e => .error e
      | .ok r4 => .ok (after_created extra lf soup r4)

/-- The `<ol>` element of a search page: the result-count div's leading
integer (absent element models the `AttributeError` path) and the immediate
`<li class="cl-search-result">` children. -/
structure OlTag where
  result_count : Option Int
  rows : List RowTag
deriving DecidableEq

/-- A fetched search page: the totalcount span's integer (if present) and
the `<ol>` element (if present). -/
structure SearchPage where
  totalcount : Option Int
  ol : Option OlTag
deriving DecidableEq

/-- `CraigslistBase.get_results_approx_count` with the soup provided:
`int(totalcount.text) if totalcount else None`. -/
def get_results_approx_count (page : SearchPage) : Option Int :=
  page.totalcount

/-- The environment of a crawl: the instance's search URL, the network
(pages keyed by the `s` offset parameter, detail pages keyed by URL), the
browser-driven contact reveal keyed by URL, and the class's extra-filter and
cached list-filter tables (`extra_filters = {}` in the base class). -/
structure CrawlEnv where
  url : String
  fetch_page : Int → Option SearchPage
  fetch_detail : String → Option DetailSoup
  reveal : String → RevealOutcome
  extra_filters : List (String × FilterSpec)
  list_filters : List (String × FilterSpec)

/-- The result dict literal of `process_row`, for a row whose meta element is
present with text `mt` (`location` is the last `·`-separated component;
falsy, i.e. empty, becomes `None`). -/
def row_record (baseUrl : String) (row : RowTag) (id href mt : String) : Result :=
  let location := (py_split "·" mt).getLastD ""
  { id := id, repost_of := row.dataRepostOf, name := row.title,
    url := urljoin baseUrl href, datetime := none, last_updated := none,
    price := row.priceText,
    where_ := if location = "" then none else some location,
    has_image := row.hasDots, geotag := none, deleted := false,
    body := none, email := none, phone := none, created := none,
    images := none, attrs := none, address := none, extra := [] }

/-- The detail phase of `process_row` (`if geotagged or include_details:`):
one `fetch_content` call (a falsy response leaves the record as built), then
`geotag_result` when geotagging was requested and `include_details` when
details were, each propagating its exception. -/
def detail_phase (env : CrawlEnv) (geotagged wantDetails : Bool) (url : String)
    (r : Result) : Nat × Except PyError (Option Result) :=
  match env.fetch_detail url with
  | none => (1, .ok (some r))
  | some soup =>
    match (if geotagged then geotag_result r soup else .ok r) with
    | .error e => (1, .error e)
    | .ok r1 =>
      if wantDetails then
        match include_details env.extra_filters env.list_filters (env.reveal url) r1 soup with
        | .error e => (1, .error e)
        | .ok r2 => (1, .ok (some r2))
      else (1, .ok (some r1))

/-- `CraigslistBase.process_row`.  Returns the number of network fetches made
together with the outcome: `ok none` for a spacer row, `ok (some r)` for a
parsed record, `error` for a raised exception.  The source reads, in order:
the spacer div, `attrs["data-pid"]` (`KeyError` on absence), the main link
(`AttributeError` when absent, `KeyError` when it has no `href`), and builds
the result dict, whose `where` entry evaluates the local `location` that is
only assigned under `if meta is not None` (`UnboundLocalError` otherwise);
then the detail phase runs when geotagging or details were requested. -/
def process_row (env : CrawlEnv) (geotagged wantDetails : Bool) (row : RowTag) :
    Nat × Except PyError (Option Result) :=
  if row.hasSpacerDiv then (0, .ok none)
  else
    match row.dataPid with
    | none => (0, .error (.keyError "data-pid"))
    | some id =>
      match row.mainLink with
      | none => (0, .error .attributeError)
      | some href? =>
        match href? with
        | none => (0, .error (.keyError "href"))
        | some href =>
          match row.metaText with
          | none => (0, .error (.unboundLocal "location"))
          | some mt =>
            if geotagged || wantDetails then
              detail_phase env geotagged wantDetails (urljoin env.url href)
                (row_record env.url row id href mt)
            else (0, .ok (some (row_record env.url row id href mt)))

/-- State after processing the rows of one page. -/
structure PageOut where
  ry : Int
  tsf : Int
  acc : List (Option Result)
  fetches : Nat
  err : Option PyError
deriving DecidableEq

/-- The `for row in rows.find_all(...)` loop of `get_results`: each row is
checked against `results_yielded >= limit` (breaking the page early), then
its `process_row` outcome is yielded as-is and both counters advance. -/
def page_rows_loop (env : CrawlEnv) (g d : Bool) (lim : Int) :
    List RowTag → Int → Int → List (Option Result) → Nat → PageOut
  | [], ry, tsf, acc, fc => ⟨ry, tsf, acc, fc, none⟩
  | row :: rest, ry, tsf, acc, fc =>
    if lim ≤ ry then ⟨ry, tsf, acc, fc, none⟩
    else
      match process_row env g d row with
      | (rfc, .error e) => ⟨ry, tsf, acc, fc + rfc, some e⟩
      | (rfc, .ok r) => page_rows_loop env g d lim rest (ry + 1) (tsf + 1) (acc ++ [r]) (fc + rfc)

/-- How a `get_results` run ended: a normal break, fuel exhaustion of the
model (the source's `while True` has no such bound), or a raised exception. -/
inductive Halt
  | finished
  | fuelOut
  | err (e : PyError)
deriving DecidableEq

/-- Observable outcome of a `get_results` run: the yielded sequence (spacer
rows yield `none`), how it halted, and how many network fetches were made. -/
structure GenOut where
  yields : List (Option Result)
  halt : Halt
  fetches : Nat
deriving DecidableEq

/-- The `if not total: total = self.get_results_approx_count(soup=soup)`
step of the page loop: the approximate total is refreshed only while falsy
(0 or None). -/
def total_refresh (total : Option Int) (page : SearchPage) : Option Int :=
  if (match total with | none => false | some n => n != 0) then total
  else get_results_approx_count page

/-- The `while True` page loop of `get_results`, fuelled.  Each iteration
fetches the page at offset `start` (stopping on a falsy response), refreshes
the approximate total when falsy, reads the `<ol>` and its result-count div
(`AttributeError` when either is absent), rebinds `limit` to the declared
count, runs the row loop (whose outcome, a pure value, is written out per
field), and continues to the next page only when `total_so_far - start`
reached `RESULTS_PER_REQUEST = 100`. -/
def get_results_loop (env : CrawlEnv) (g d : Bool) :
    Nat → Int → Int → Int → Option Int → List (Option Result) → Nat → GenOut
  | 0, _, _, _, _, acc, fc => ⟨acc, .fuelOut, fc⟩
  | fuel + 1, start, tsf, ry, total, acc, fc =>
    match env.fetch_page start with
    | none => ⟨acc, .finished, fc + 1⟩
    | some page =>
      match page.ol with
      | none => ⟨acc, .err .attributeError, fc + 1⟩
      | some ol =>
        match ol.result_count with
        | none => ⟨acc, .err .attributeError, fc + 1⟩
        | some lim =>
          match (page_rows_loop env g d lim ol.rows ry tsf acc (fc + 1)).err with
          | some e =>
            ⟨(page_rows_loop env g d lim ol.rows ry tsf acc (fc + 1)).acc, .err e,
             (page_rows_loop env g d lim ol.rows ry tsf acc (fc + 1)).fetches⟩
          | none =>
            if (page_rows_loop env g d lim ol.rows ry tsf acc (fc + 1)).tsf - start < 100 then
              ⟨(page_rows_loop env g d lim ol.rows ry tsf acc (fc + 1)).acc, .finished,
               (page_rows_loop env g d lim ol.rows ry tsf acc (fc + 1)).fetches⟩
            else
              get_results_loop env g d fuel
                (page_rows_loop env g d lim ol.rows ry tsf acc (fc + 1)).tsf
                (page_rows_loop env g d lim ol.rows ry tsf acc (fc + 1)).tsf
                (page_rows_loop env g d lim ol.rows ry tsf acc (fc + 1)).ry
                (total_refresh total page)
                (page_rows_loop env g d lim ol.rows ry tsf acc (fc + 1)).acc
                (page_rows_loop env g d lim ol.rows ry tsf acc (fc + 1)).fetches

/-- `CraigslistBase.get_results`.  The `limit` parameter of the source is
dead (rebound from the page's result-count div before every read) and kept
only for signature fidelity.  An unknown `sort_by` raises `ValueError`
before the loop (so before any fetch); a valid one stores the sort code in
the request parameters, which the abstract `fetch_page` already carries. -/
def get_results (env : CrawlEnv) (fuel : Nat) (_limit : Option Int) (start : Int)
    (sort_by : Option String) (geotagged wantDetails : Bool) : GenOut :=
  match sort_by with
  | none => get_results_loop env geotagged wantDetails fuel start start 0 (some 0) [] 0
  | some s =>
    match sort_by_options.lookup s with
    | none =>
      ⟨[], .err (.valueError (s ++ " is not a valid sort_by option, use: newest, price_asc or price_desc")), 0⟩
    | some _ => get_results_loop env geotagged wantDetails fuel start start 0 (some 0) [] 0

/-! ### Concrete fixtures used by witnesses and counterexamples -/

/-- A trivial environment with an empty network. -/
def env0 : CrawlEnv :=
  { url := "https://newyork.craigslist.org/search/sss",
    fetch_page := fun _ => none,
    fetch_detail := fun _ => none,
    reveal := fun _ => ⟨none, none⟩,
    extra_filters := [],
    list_filters := [] }

/-- An ordinary (non-spacer) result row. -/
def row_plain : RowTag :=
  { hasSpacerDiv := false, dataPid := some "7001", dataRepostOf := none,
    title := some "apple watch", mainLink := some (some "/lst/7001.html"),
    priceText := some "$30", hasDots := true, metaText := some "2h ago ·Brooklyn" }

/-- A layout-spacer row. -/
def row_spacer : RowTag :=
  { hasSpacerDiv := true, dataPid := none, dataRepostOf := none,
    title := none, mainLink := none,
    priceText := none, hasDots := false, metaText := none }

/-- A row whose `<div class="meta">` element is absent. -/
def row_no_meta : RowTag :=
  { hasSpacerDiv := false, dataPid := some "7002", dataRepostOf := none,
    title := some "bike", mainLink := some (some "/lst/7002.html"),
    priceText := none, hasDots := false, metaText := none }

/-- A summary record as `process_row` produces it for `row_plain` with the
`env0` base URL. -/
def rec_plain : Result :=
  { id := "7001", repost_of := none, name := some "apple watch",
    url := "https://newyork.craigslist.org/search/sss/lst/7001.html",
    datetime := none, last_updated := none, price := some "$30",
    where_ := some "Brooklyn", has_image := true, geotag := none,
    deleted := false, body := none, email := none, phone := none,
    created := none, images := none, attrs := none, address := none, extra := [] }

/-- A detail page with no posting-body section. -/
def soup_no_body : DetailSoup :=
  { postingbody := none, postinginfos := some [], imgs := [],
    attrgroups := [], mapaddress := none, map_ := none }

/-- A detail page whose postinginfos block holds a posted entry with a
`datetime` attribute carrying a `-05:00` timezone offset. -/
def soup_posted : DetailSoup :=
  { postingbody := some [⟨"selling my watch", false⟩],
    postinginfos := some [⟨"posted: ", some ⟨some "2023-01-01T10:30:00-05:00"⟩⟩],
    imgs := [], attrgroups := [], mapaddress := none, map_ := none }

/-- A detail page whose map element carries only a latitude attribute. -/
def soup_lat_only : DetailSoup :=
  { postingbody := some [⟨"x", false⟩], postinginfos := some [], imgs := [],
    attrgroups := [], mapaddress := none,
    map_ := some ⟨some "40.7128", none⟩ }

/-- The `created` field of an `include_details` outcome (absent on error). -/
def created_of (x : Except PyError Result) : Option String :=
  match x with
  | .ok r => r.created
  | .error _ => none

/-! ### Claim C2 -/

/-- Claim C2 (amended part): for every row that carries a layout-spacer div,
`process_row` returns null without making any fetch. -/
theorem c2_spacer_process_row_none (env : CrawlEnv) (g d : Bool) (row : RowTag)
    (h : row.hasSpacerDiv = true) :
    process_row env g d row = (0, .ok none) := by
  simp [process_row, h]

/-- Witness for `c2_spacer_process_row_none` at the concrete spacer row. -/
theorem c2_spacer_process_row_none_witness :
    row_spacer.hasSpacerDiv = true ∧
      process_row env0 false false row_spacer = (0, .ok none) :=
  ⟨by decide, c2_spacer_process_row_none env0 false false row_spacer (by decide)⟩

/-- The single search page of the C2 counterexample: its only row is a
spacer, with a declared result count of 1. -/
def page_c2 : SearchPage :=
  { totalcount := some 1, ol := some { result_count := some 1, rows := [row_spacer] } }

/-- Environment for the C2 counterexample: `page_c2` at offset 0, nothing
else on the network. -/
def env_c2 : CrawlEnv :=
  { env0 with fetch_page := fun s => if s = 0 then some page_c2 else none }

/-- Claim C2 counterexample: on a page whose only row is a spacer,
`get_results` yields a sequence containing one entry, the null produced by
`process_row` — the spacer row is yielded (as null), not skipped, so the
claim that no entry for the row appears in the produced sequence is false. -/
theorem c2_counterexample :
    get_results env_c2 2 none 0 none false false = ⟨[none], .finished, 1⟩ := by
  decide

/-! ### Claim C3 -/

/-- Claim C3 (confirmed): when the fetched detail page has no posting-body
section, `include_details` sets `deleted` to true and leaves every other
field of the record unchanged (the outcome is exactly the input record with
`deleted := true`). -/
theorem c3_missing_body_marks_deleted (extra lf : List (String × FilterSpec))
    (reveal : RevealOutcome) (r : Result) (soup : DetailSoup)
    (h : soup.postingbody = none) :
    include_details extra lf reveal r soup = .ok { r with deleted := true } := by
  simp [include_details, h]

/-- Witness for `c3_missing_body_marks_deleted` at a concrete record and
bodyless detail page. -/
theorem c3_missing_body_marks_deleted_witness :
    soup_no_body.postingbody = none ∧
      include_details [] [] ⟨none, none⟩ rec_plain soup_no_body =
        .ok { rec_plain with deleted := true } :=
  ⟨by decide, c3_missing_body_marks_deleted [] [] ⟨none, none⟩ rec_plain soup_no_body (by decide)⟩

/-! ### Claim C4 -/

/-- Claim C4 (code bug): on a detail page whose posted entry's `datetime`
attribute is `2023-01-01T10:30:00-05:00`, `include_details` stores
`created = "2023-01-01 10:30:00-05"` — `rsplit(":", 1)` strips only the
final `:00` of the timezone offset, so neither the sub-minute precision nor
the timezone is dropped, contradicting the claimed `"2023-01-01 10:30"`
(which is also what the source's own comment says the transform produces). -/
theorem c4_timezone_not_stripped :
    created_of (include_details [] [] ⟨none, none⟩ rec_plain soup_posted) =
        some "2023-01-01 10:30:00-05" ∧
      created_of (include_details [] [] ⟨none, none⟩ rec_plain soup_posted) ≠
        some "2023-01-01 10:30" := by
  decide

/-! ### Claim C7 -/

/-- The row of `row_no_meta` with a meta element present (price still
absent). -/
def row_no_price : RowTag :=
  { row_no_meta with metaText := some "·Queens" }

/-- The record that `process_row` produces for `row_no_price`. -/
def rec_no_price : Result :=
  { rec_plain with
    id := "7002",
    name := some "bike",
    url := "https://newyork.craigslist.org/search/sss/lst/7002.html",
    price := none, where_ := some "Queens", has_image := false }

/-- Claim C7 (code bug): on a row whose meta element is absent, `process_row`
raises `UnboundLocalError` for `location` (the `where` entry of the result
dict reads a local that is only assigned under `if meta is not None`) instead
of returning a record with the location field unset.  On a row whose price
element is absent but whose meta element is present, the record is returned
with `price = None` as the claim says, so the price half of the claim holds
while the location half fails. -/
theorem c7_missing_meta_raises :
    process_row env0 false false row_no_meta = (0, .error (.unboundLocal "location")) ∧
      process_row env0 false false row_no_price = (0, .ok (some rec_no_price)) := by
  decide

/-! ### Claim C9 -/

/-- Claim C9 counterexample: on a detail page whose map element carries a
latitude but no longitude attribute, `geotag_result` raises a `KeyError`
instead of treating the partial coordinates as absent. -/
theorem c9_counterexample :
    geotag_result rec_plain soup_lat_only = .error (.keyError "data-longitude") := by
  decide

/-- Claim C9 (amended): `geotag_result` leaves the record unchanged when the
map element is absent, sets the complete coordinate pair when both attributes
are present, and raises a `KeyError` for whichever coordinate attribute is
missing when the map element is present with partial coordinates. -/
theorem c9_geotag_cases (r : Result) (soup : DetailSoup) :
    (soup.map_ = none → geotag_result r soup = .ok r) ∧
    (∀ m la lo, soup.map_ = some m → m.latitude = some la → m.longitude = some lo →
      geotag_result r soup = .ok { r with geotag := some (la, lo) }) ∧
    (∀ m, soup.map_ = some m → m.latitude = none →
      geotag_result r soup = .error (.keyError "data-latitude")) ∧
    (∀ m la, soup.map_ = some m → m.latitude = some la → m.longitude = none →
      geotag_result r soup = .error (.keyError "data-longitude")) := by
  refine ⟨fun h => by simp [geotag_result, h], fun m la lo h h1 h2 => ?_,
    fun m h h1 => ?_, fun m la h h1 h2 => ?_⟩ <;>
    simp [geotag_result, h, h1]
  · simp [h2]
  · simp [h2]

/-- A detail page whose map element carries both coordinate attributes. -/
def soup_both_coords : DetailSoup :=
  { soup_lat_only with map_ := some ⟨some "40.7", some "-74.0"⟩ }

/-- Witness for `c9_geotag_cases`: the map-absent, both-present and
longitude-missing cases evaluated on concrete pages. -/
theorem c9_geotag_cases_witness :
    geotag_result rec_plain soup_no_body = .ok rec_plain ∧
      geotag_result rec_plain soup_both_coords =
        .ok ({ rec_plain with geotag := some ("40.7", "-74.0") }) ∧
      geotag_result rec_plain soup_lat_only = .error (.keyError "data-longitude") :=
  ⟨(c9_geotag_cases rec_plain soup_no_body).1 (by decide),
   ((c9_geotag_cases rec_plain soup_both_coords).2.1 ⟨some "40.7", some "-74.0"⟩
     "40.7" "-74.0" (by decide) (by decide) (by decide)),
   ((c9_geotag_cases rec_plain soup_lat_only).2.2.2 ⟨some "40.7128", none⟩
     "40.7128" (by decide) (by decide) (by decide))⟩

/-! ### Claims C6 and C10 -/

/-- Lookup after a dict assignment finds the assigned value. -/
theorem lookup_dictSet {α : Type} (d : List (String × α)) (k : String) (v : α) :
    (dictSet d k v).lookup k = some v := by
  induction d with
  | nil => simp [dictSet, List.lookup]
  | cons p rest ih =>
    by_cases h : p.1 = k
    · simp [dictSet, h, List.lookup]
    · have hne : (k == p.1) = false := beq_eq_false_iff_ne.mpr (Ne.symm h)
      simp [dictSet, h, List.lookup, hne, ih]

/-- A sample cached list-filter table. -/
def lf_sample : List (String × FilterSpec) :=
  [("clothes", ⟨"clothing_type", .options [("shirt", "1"), ("pants", "2")], none⟩)]

/-- Claim C6 (confirmed): a semantic key found in none of the three filter
tables contributes nothing to the parsed parameters (the whole `get_filters`
run is unchanged by dropping the entry, and in particular never fails); and
a key resolving to a list filter contributes exactly the successful
option-table lookups of the requested option names — unresolved options are
dropped by the `filterMap`, never replaced by a default. -/
theorem c6_unknown_dropped_unresolved_dropped :
    (∀ base extra lf fs1 fs2 k v, lookup3 base extra lf k = none →
      get_filters base extra lf (fs1 ++ (k, v) :: fs2) =
        get_filters base extra lf (fs1 ++ fs2)) ∧
    (∀ base extra lf parsed k v spec valid, lookup3 base extra lf k = some spec →
      spec.value = .options valid →
      apply_filter base extra lf parsed (k, v) =
        dictSet parsed spec.url_key (.opts ((force_list v).filterMap (opt_lookup valid)))) := by
  constructor
  · intro base extra lf fs1 fs2 k v h
    simp [get_filters, List.foldl_append, List.foldl_cons, apply_filter, h]
  · intro base extra lf parsed k v spec valid h hv
    simp [apply_filter, h, hv]

/-- Witness for `c6_unknown_dropped_unresolved_dropped`: the unknown key
`bogus` is dropped from a concrete run, and the list-filter entry `clothes`
resolves `[hat, shirt]` to exactly the lookups that succeed. -/
theorem c6_unknown_dropped_unresolved_dropped_witness :
    get_filters base_filters [] lf_sample
        ([("query", .item (.str "apple"))] ++ ("bogus", .item (.num 3)) :: []) =
      get_filters base_filters [] lf_sample ([("query", .item (.str "apple"))] ++ []) ∧
    apply_filter base_filters [] lf_sample [] ("clothes", .list [.str "hat", .str "shirt"]) =
      dictSet [] "clothing_type"
        (.opts ((force_list (.list [.str "hat", .str "shirt"])).filterMap
          (opt_lookup [("shirt", "1"), ("pants", "2")]))) :=
  ⟨c6_unknown_dropped_unresolved_dropped.1 base_filters [] lf_sample
      [("query", .item (.str "apple"))] [] "bogus" (.item (.num 3)) (by decide),
   c6_unknown_dropped_unresolved_dropped.2 base_filters [] lf_sample [] "clothes"
      (.list [.str "hat", .str "shirt"]) ⟨"clothing_type", .options [("shirt", "1"), ("pants", "2")], none⟩
      [("shirt", "1"), ("pants", "2")] (by decide) (by decide)⟩

/-- Claim C10 (confirmed): when a requested list filter resolves none of its
requested option names, `get_filters` still emits the filter's provider key,
mapped to the empty option list. -/
theorem c10_empty_option_list_emitted (base extra lf : List (String × FilterSpec))
    (fs : List (String × UserVal)) (k : String) (v : UserVal) (spec : FilterSpec)
    (valid : List (String × String))
    (h : lookup3 base extra lf k = some spec) (hv : spec.value = .options valid)
    (hall : (force_list v).filterMap (opt_lookup valid) = []) :
    (get_filters base extra lf (fs ++ [(k, v)])).lookup spec.url_key = some (.opts []) := by
  have h2 : get_filters base extra lf (fs ++ [(k, v)]) =
      dictSet (get_filters base extra lf fs) spec.url_key (.opts []) := by
    simp [get_filters, List.foldl_append, apply_filter, h, hv, hall]
  rw [h2, lookup_dictSet]

/-- Witness for `c10_empty_option_list_emitted`: requesting the list filter
`clothes` with the single unresolvable option `hat` emits
`clothing_type = []`. -/
theorem c10_empty_option_list_emitted_witness :
    (get_filters base_filters [] lf_sample ([] ++ [("clothes", .item (.str "hat"))])).lookup
        "clothing_type" = some (.opts []) :=
  c10_empty_option_list_emitted base_filters [] lf_sample [] "clothes" (.item (.str "hat"))
    ⟨"clothing_type", .options [("shirt", "1"), ("pants", "2")], none⟩
    [("shirt", "1"), ("pants", "2")] (by decide) (by decide) (by decide)

/-! ### Claim C8 -/

/-- A fold over result-preserving steps preserves the `images` field. -/
theorem foldl_images_eq (f : Result → String × FilterSpec → Result)
    (hf : ∀ r kv, (f r kv).images = r.images) (l : List (String × FilterSpec)) (r : Result) :
    (l.foldl f r).images = r.images := by
  induction l generalizing r with
  | nil => rfl
  | cons kv rest ih => rw [List.foldl_cons, ih, hf]

/-- The binary-filter pass never touches `images`. -/
theorem binary_attr_step_images (L : List String) (r : Result) (kv : String × FilterSpec) :
    (binary_attr_step L r kv).images = r.images := by
  unfold binary_attr_step
  split <;> [skip; rfl]
  split <;> rfl

/-- The list-filter pass never touches `images`. -/
theorem list_attr_step_images (A : List String) (r : Result) (kv : String × FilterSpec) :
    (list_attr_step A r kv).images = r.images := by
  unfold list_attr_step
  split <;> try rfl
  split <;> rfl

/-- `parse_attrs` never touches `images`. -/
theorem parse_attrs_images (extra lf : List (String × FilterSpec)) (r : Result) :
    (parse_attrs extra lf r).images = r.images := by
  unfold parse_attrs
  rw [foldl_images_eq _ (list_attr_step_images _), foldl_images_eq _ (binary_attr_step_images _)]

/-- The `include_details` tail always stores exactly the computed image
list. -/
theorem after_created_images (extra lf : List (String × FilterSpec)) (soup : DetailSoup)
    (r4 : Result) :
    (after_created extra lf soup r4).images = some (detail_images soup.imgs) := by
  unfold after_created
  rcases hma : soup.mapaddress with _ | a <;>
    by_cases he : (attrs_of soup.attrgroups).isEmpty <;>
      simp [hma, he, parse_attrs_images]

/-- Claim C8 (confirmed): `detail_images` drops exactly the first entry of a
multi-image list and size-upgrades every remaining URL; a single image is
kept and size-upgraded; and whenever `include_details` succeeds on a page
with a posting body, the record's image list is exactly `detail_images` of
the page's image tags. -/
theorem c8_images_drop_first_and_upgrade :
    (∀ imgs : List ImgTag, 1 < imgs.length →
      detail_images imgs = (imgs.drop 1).filterMap upgrade_src) ∧
    (∀ i : ImgTag, detail_images [i] = [i].filterMap upgrade_src) ∧
    (∀ extra lf reveal r soup r2, soup.postingbody.isSome = true →
      include_details extra lf reveal r soup = .ok r2 →
      r2.images = some (detail_images soup.imgs)) := by
  refine ⟨fun imgs h => by simp [detail_images, h], fun i => by simp [detail_images], ?_⟩
  intro extra lf reveal r soup r2 hpb hok
  rcases hb : soup.postingbody with _ | nodes
  · rw [hb] at hpb; cases hpb
  rcases hpi : soup.postinginfos with _ | ps
  · simp [include_details, hb, hpi] at hok
  rcases hcl : created_loop ps
      (reveal_phase reveal { r with body := some (body_text_of nodes) }) with e | r4
  · simp [include_details, hb, hpi, hcl] at hok
  · simp [include_details, hb, hpi, hcl] at hok
    rw [← hok]
    exact after_created_images extra lf soup r4

/-- A first image tag with a thumbnail-sized URL. -/
def img1 : ImgTag := ⟨some "https://img/50x50c/a.jpg"⟩

/-- A second image tag with a thumbnail-sized URL. -/
def img2 : ImgTag := ⟨some "https://img/50x50c/b.jpg"⟩

/-- The record `include_details` produces for `rec_plain` on `soup_posted`. -/
def rec_c8out : Result :=
  { rec_plain with
    body := some "selling my watch",
    created := some "2023-01-01 10:30:00-05",
    images := some [], attrs := some [] }

/-- Witness for `c8_images_drop_first_and_upgrade`: a two-image list, a
one-image list, and a successful concrete `include_details` run. -/
theorem c8_images_drop_first_and_upgrade_witness :
    detail_images [img1, img2] = ([img1, img2].drop 1).filterMap upgrade_src ∧
      detail_images [img1] = [img1].filterMap upgrade_src ∧
      rec_c8out.images = some (detail_images soup_posted.imgs) :=
  ⟨c8_images_drop_first_and_upgrade.1 [img1, img2] (by decide),
   c8_images_drop_first_and_upgrade.2.1 img1,
   c8_images_drop_first_and_upgrade.2.2 [] [] ⟨none, none⟩ rec_plain soup_posted rec_c8out
     (by decide) (by decide)⟩

/-! ### Claim C5 -/

/-- Whether an exception is the configuration `ValueError`. -/
def is_value_error : PyError → Bool
  | .valueError _ => true
  | _ => false

/-- The creation-time step only raises `KeyError`. -/
theorem created_step_no_ve (r : Result) (p : PTag) (e : PyError)
    (h : created_step r p = .error e) : is_value_error e = false := by
  unfold created_step at h
  split at h <;> [skip; cases h]
  split at h <;> [cases h; skip]
  split at h <;> [skip; cases h]
  cases h
  rfl

/-- The creation-time loop only raises `KeyError`. -/
theorem created_loop_no_ve (ps : List PTag) (r : Result) (e : PyError)
    (h : created_loop ps r = .error e) : is_value_error e = false := by
  induction ps generalizing r with
  | nil => cases h
  | cons p rest ih =>
    unfold created_loop at h
    split at h
    · rename_i e2 hstep
      cases h
      exact created_step_no_ve r p e hstep
    · exact ih _ h

/-- `include_details` never raises the configuration `ValueError`. -/
theorem include_details_no_ve (extra lf : List (String × FilterSpec))
    (reveal : RevealOutcome) (r : Result) (soup : DetailSoup) (e : PyError)
    (h : include_details extra lf reveal r soup = .error e) : is_value_error e = false := by
  unfold include_details at h
  split at h <;> [cases h; skip]
  split at h <;> [skip; skip]
  · cases h; rfl
  · split at h
    · rename_i e2 hcl
      cases h
      exact created_loop_no_ve _ _ _ hcl
    · cases h

/-- `geotag_result` never raises the configuration `ValueError`. -/
theorem geotag_result_no_ve (r : Result) (soup : DetailSoup) (e : PyError)
    (h : geotag_result r soup = .error e) : is_value_error e = false := by
  unfold geotag_result at h
  split at h <;> [cases h; skip]
  split at h <;> [(cases h; rfl); skip]
  split at h <;> [(cases h; rfl); cases h]

/-- The detail phase never raises the configuration `ValueError`. -/
theorem detail_phase_no_ve (env : CrawlEnv) (g d : Bool) (url : String) (r : Result)
    (fc : Nat) (e : PyError) (h : detail_phase env g d url r = (fc, .error e)) :
    is_value_error e = false := by
  unfold detail_phase at h
  split at h <;> [cases h; skip]
  split at h
  · rename_i e2 hge
    cases h
    split at hge <;> [exact geotag_result_no_ve _ _ _ hge; cases hge]
  · split at h
    · split at h
      · rename_i e2 hid
        cases h
        exact include_details_no_ve _ _ _ _ _ _ hid
      · cases h
    · cases h

/-- `process_row` never raises the configuration `ValueError`. -/
theorem process_row_no_ve (env : CrawlEnv) (g d : Bool) (row : RowTag) (fc : Nat)
    (e : PyError) (h : process_row env g d row = (fc, .error e)) :
    is_value_error e = false := by
  unfold process_row at h
  split at h <;> [cases h; skip]
  split at h <;> [(cases h; rfl); skip]
  split at h <;> [(cases h; rfl); skip]
  split at h <;> [(cases h; rfl); skip]
  split at h <;> [(cases h; rfl); skip]
  split at h
  · exact detail_phase_no_ve _ _ _ _ _ _ _ h
  · cases h

/-- The row loop only surfaces errors raised by `process_row`. -/
theorem page_rows_loop_no_ve (env : CrawlEnv) (g d : Bool) (lim : Int)
    (rows : List RowTag) (ry tsf : Int) (acc : List (Option Result)) (fc : Nat)
    (e : PyError) (h : (page_rows_loop env g d lim rows ry tsf acc fc).err = some e) :
    is_value_error e = false := by
  induction rows generalizing ry tsf acc fc with
  | nil => cases h
  | cons row rest ih =>
    unfold page_rows_loop at h
    split at h <;> [cases h; skip]
    split at h
    · rename_i rfc e2 hpr
      cases h
      exact process_row_no_ve env g d row rfc e hpr
    · exact ih _ _ _ _ h

/-- Unfolding equation of `get_results_loop` at fuel 0. -/
theorem get_results_loop_zero (env : CrawlEnv) (g d : Bool) (start tsf ry : Int)
    (total : Option Int) (acc : List (Option Result)) (fc : Nat) :
    get_results_loop env g d 0 start tsf ry total acc fc = ⟨acc, .fuelOut, fc⟩ := rfl

/-- Unfolding equation of `get_results_loop` at a successor fuel. -/
theorem get_results_loop_succ (env : CrawlEnv) (g d : Bool) (fuel : Nat)
    (start tsf ry : Int) (total : Option Int) (acc : List (Option Result)) (fc : Nat) :
    get_results_loop env g d (fuel + 1) start tsf ry total acc fc =
      match env.fetch_page start with
      | none => ⟨acc, .finished, fc + 1⟩
      | some page =>
        match page.ol with
        | none => ⟨acc, .err .attributeError, fc + 1⟩
        | some ol =>
          match ol.result_count with
          | none => ⟨acc, .err .attributeError, fc + 1⟩
          | some lim =>
            match (page_rows_loop env g d lim ol.rows ry tsf acc (fc + 1)).err with
            | some e =>
              ⟨(page_rows_loop env g d lim ol.rows ry tsf acc (fc + 1)).acc, .err e,
               (page_rows_loop env g d lim ol.rows ry tsf acc (fc + 1)).fetches⟩
            | none =>
              if (page_rows_loop env g d lim ol.rows ry tsf acc (fc + 1)).tsf - start < 100 then
                ⟨(page_rows_loop env g d lim ol.rows ry tsf acc (fc + 1)).acc, .finished,
                 (page_rows_loop env g d lim ol.rows ry tsf acc (fc + 1)).fetches⟩
              else
                get_results_loop env g d fuel
                  (page_rows_loop env g d lim ol.rows ry tsf acc (fc + 1)).tsf
                  (page_rows_loop env g d lim ol.rows ry tsf acc (fc + 1)).tsf
                  (page_rows_loop env g d lim ol.rows ry tsf acc (fc + 1)).ry
                  (total_refresh total page)
                  (page_rows_loop env g d lim ol.rows ry tsf acc (fc + 1)).acc
                  (page_rows_loop env g d lim ol.rows ry tsf acc (fc + 1)).fetches := rfl

/-- The page loop never raises the configuration `ValueError`. -/
theorem get_results_loop_no_ve (env : CrawlEnv) (g d : Bool) (fuel : Nat)
    (start tsf ry : Int) (total : Option Int) (acc : List (Option Result)) (fc : Nat)
    (e : PyError)
    (h : (get_results_loop env g d fuel start tsf ry total acc fc).halt = .err e) :
    is_value_error e = false := by
  induction fuel generalizing start tsf ry total acc fc with
  | zero => cases h
  | succ fuel ih =>
    rw [get_results_loop_succ] at h
    split at h <;> [cases h; skip]
    split at h <;> [(cases h; rfl); skip]
    split at h <;> [(cases h; rfl); skip]
    split at h
    · rename_i e2 hpr
      cases h
      exact page_rows_loop_no_ve env g d _ _ ry tsf acc _ _ hpr
    · split at h <;> [cases h; exact ih _ _ _ _ _ _ h]

/-- Claim C5 (confirmed): a sort key outside the valid table makes
`get_results` end immediately with the descriptive `ValueError` — no entry
is yielded and no network fetch is made; for a key in the table, the run
never produces a `ValueError` (the sort check is the only place one is
raised). -/
theorem c5_invalid_sort_rejected_before_fetch :
    (∀ env fuel lim start g d s, sort_by_options.lookup s = none →
      get_results env fuel lim start (some s) g d =
        ⟨[], .err (.valueError
          (s ++ " is not a valid sort_by option, use: newest, price_asc or price_desc")), 0⟩) ∧
    (∀ env fuel lim start g d s v m, sort_by_options.lookup s = some v →
      (get_results env fuel lim start (some s) g d).halt ≠ .err (.valueError m)) := by
  constructor
  · intro env fuel lim start g d s h
    simp [get_results, h]
  · intro env fuel lim start g d s v m h hcon
    simp only [get_results, h] at hcon
    have h2 := get_results_loop_no_ve env g d fuel start start 0 (some 0) [] 0 _ hcon
    simp [is_value_error] at h2

/-- Witness for `c5_invalid_sort_rejected_before_fetch`: the invalid key
`oldest` is rejected with zero fetches; the valid key `newest` never ends in
a `ValueError`. -/
theorem c5_invalid_sort_rejected_before_fetch_witness :
    get_results env0 1 none 0 (some "oldest") false false =
        ⟨[], .err (.valueError
          ("oldest" ++ " is not a valid sort_by option, use: newest, price_asc or price_desc")), 0⟩ ∧
      (get_results env0 1 none 0 (some "newest") false false).halt ≠
        .err (.valueError "nope") :=
  ⟨c5_invalid_sort_rejected_before_fetch.1 env0 1 none 0 false false "oldest" (by decide),
   c5_invalid_sort_rejected_before_fetch.2 env0 1 none 0 false false "newest" "date" "nope"
     (by decide)⟩

/-! ### Claim C1 -/

/-- Claim C1 (amended): the row loop compares the cumulative count of
results yielded since iteration began against the current page's declared
count: entered with `ry` already yielded against declared count `lim`, a
page of `n` rows yields (when no row raises) exactly
`min n (lim - ry)` further entries — not up to `lim` afresh. -/
theorem c1_page_yield_is_cumulative (env : CrawlEnv) (g d : Bool) (lim : Int)
    (rows : List RowTag) (ry tsf : Int) (acc : List (Option Result)) (fc : Nat)
    (h : (page_rows_loop env g d lim rows ry tsf acc fc).err = none) :
    (page_rows_loop env g d lim rows ry tsf acc fc).acc.length =
      acc.length + min rows.length (lim - ry).toNat := by
  induction rows generalizing ry tsf acc fc with
  | nil => simp [page_rows_loop]
  | cons row rest ih =>
    by_cases hl : lim ≤ ry
    · have hz : (lim - ry).toNat = 0 := by omega
      simp [page_rows_loop, hl, hz]
    · rcases hpr : process_row env g d row with ⟨rfc, res⟩
      rcases res with e | r
      · rw [page_rows_loop] at h
        simp only [if_neg hl, hpr] at h
        cases h
      · rw [page_rows_loop] at h ⊢
        simp only [if_neg hl, hpr] at h ⊢
        rw [ih _ _ _ _ h]
        simp only [List.length_append, List.length_cons, List.length_nil]
        omega

/-- A minimal ordinary row used by the pagination fixtures. -/
def row_min : RowTag :=
  { hasSpacerDiv := false, dataPid := some "1", dataRepostOf := none,
    title := none, mainLink := some (some "u"), priceText := none,
    hasDots := false, metaText := some "w" }

/-- Witness for `c1_page_yield_is_cumulative`: a two-row page entered fresh
against a declared count of 1 yields exactly one entry. -/
theorem c1_page_yield_is_cumulative_witness :
    (page_rows_loop env0 false false 1 [row_min, row_min] 0 0 [] 0).err = none ∧
      (page_rows_loop env0 false false 1 [row_min, row_min] 0 0 [] 0).acc.length =
        List.length ([] : List (Option Result)) +
          min [row_min, row_min].length ((1 : Int) - 0).toNat :=
  ⟨by decide, c1_page_yield_is_cumulative env0 false false 1 [row_min, row_min] 0 0 [] 0
    (by decide)⟩

/-- First page of the C1 counterexample: declared count 150, 100 rows. -/
def page_c1a : SearchPage :=
  { totalcount := some 150,
    ol := some { result_count := some 150, rows := List.replicate 100 row_min } }

/-- Second page of the C1 counterexample: declared count 100, 50 rows. -/
def page_c1b : SearchPage :=
  { totalcount := some 150,
    ol := some { result_count := some 100, rows := List.replicate 50 row_min } }

/-- Environment for the C1 counterexample. -/
def env_c1 : CrawlEnv :=
  { url := "b",
    fetch_page := fun s =>
      if s = 0 then some page_c1a else if s = 100 then some page_c1b else none,
    fetch_detail := fun _ => none,
    reveal := fun _ => ⟨none, none⟩,
    extra_filters := [], list_filters := [] }

/-- Claim C1 counterexample: over two pages — the first declaring 150 with
100 rows, the second declaring 100 with 50 rows — `get_results` fetches both
pages but yields only the first page's 100 entries: the cumulative yield
count (100) already equals the second page's declared count, so the second
page yields 0, not "up to its own declared count" as the claim states. -/
theorem c1_counterexample :
    (get_results env_c1 3 none 0 none false false).yields.length = 100 ∧
      (get_results env_c1 3 none 0 none false false).fetches = 2 ∧
      (get_results env_c1 3 none 0 none false false).halt = .finished := by
  decide
